import Mathlib

/-!
Verification of `scripts/search_logger.py`: a chat-completions interception
proxy that extracts the latest user query from proxied requests and records
it against a resolved user identity in a document store.

The embedding below translates the Python source shallowly:
* JSON values are the inductive `Json`; Python truthiness is `jsonTruthy`.
* `_extract_user_text` / `_build_event_from_payload` become
  `extractUserText` / `buildEventFromPayload` over `Json`.
* The Mongo collections become lists of documents inside a `DB` state; the
  single `find_one_and_update(..., upsert=True, ReturnDocument.AFTER)` call
  is one atomic transition `findOneAndUpdateUpsert`.
* `_filter_headers` / `_forward_headers` become `filterHeaders` /
  `forwardHeaders` over ordered association lists (Python 3.7+ dicts keep
  insertion order; assignment to an existing key overwrites in place).
* The route handlers become functions from the request plus oracles for the
  store and the upstream to an outcome and a trace of actions; the
  application-level exception mapping (the registered
  `httpx.RequestError -> 502` handler, FastAPI's `HTTPException` rendering,
  and the framework default of 500 for an unhandled exception) is
  `appRespond`.
-/

/-- A JSON value as produced by `request.json()` / `json.loads`. Numbers are
modelled as integers (no claim depends on non-integral numerics). -/
inductive Json where
  | null
  | bool (b : Bool)
  | num (n : Int)
  | str (s : String)
  | arr (items : List Json)
  | obj (fields : List (String × Json))

mutual

/-- Structural equality test on JSON values. -/
def Json.beq : Json → Json → Bool
  | .null, .null => true
  | .bool a, .bool b => a == b
  | .num a, .num b => a == b
  | .str a, .str b => a == b
  | .arr a, .arr b => Json.beqItems a b
  | .obj a, .obj b => Json.beqFields a b
  | _, _ => false

/-- Pointwise equality test on JSON arrays. -/
def Json.beqItems : List Json → List Json → Bool
  | [], [] => true
  | a :: as, b :: bs => Json.beq a b && Json.beqItems as bs
  | _, _ => false

/-- Pointwise equality test on JSON object fields. -/
def Json.beqFields : List (String × Json) → List (String × Json) → Bool
  | [], [] => true
  | (ka, va) :: as, (kb, vb) :: bs =>
      ka == kb && Json.beq va vb && Json.beqFields as bs
  | _, _ => false

end

mutual

theorem Json.eq_of_beq : (a b : Json) → Json.beq a b = true → a = b
  | .null, .null, _ => rfl
  | .bool a, .bool b, h => by
      simp only [Json.beq, beq_iff_eq] at h; exact congrArg Json.bool h
  | .num a, .num b, h => by
      simp only [Json.beq, beq_iff_eq] at h; exact congrArg Json.num h
  | .str a, .str b, h => by
      simp only [Json.beq, beq_iff_eq] at h; exact congrArg Json.str h
  | .arr a, .arr b, h => congrArg Json.arr (Json.eqItems_of_beq a b h)
  | .obj a, .obj b, h => congrArg Json.obj (Json.eqFields_of_beq a b h)

theorem Json.eqItems_of_beq : (a b : List Json) → Json.beqItems a b = true → a = b
  | [], [], _ => rfl
  | a :: as, b :: bs, h => by
      simp only [Json.beqItems, Bool.and_eq_true] at h
      rw [Json.eq_of_beq a b h.1, Json.eqItems_of_beq as bs h.2]
  | [], _ :: _, h => by simp [Json.beqItems] at h
  | _ :: _, [], h => by simp [Json.beqItems] at h

theorem Json.eqFields_of_beq :
    (a b : List (String × Json)) → Json.beqFields a b = true → a = b
  | [], [], _ => rfl
  | (ka, va) :: as, (kb, vb) :: bs, h => by
      simp only [Json.beqFields, Bool.and_eq_true, beq_iff_eq] at h
      rw [h.1.1, Json.eq_of_beq va vb h.1.2, Json.eqFields_of_beq as bs h.2]
  | [], _ :: _, h => by simp [Json.beqFields] at h
  | _ :: _, [], h => by simp [Json.beqFields] at h

end

mutual

theorem Json.beq_refl : (a : Json) → Json.beq a a = true
  | .null => rfl
  | .bool a => by simp [Json.beq]
  | .num a => by simp [Json.beq]
  | .str a => by simp [Json.beq]
  | .arr a => Json.beqItems_refl a
  | .obj a => Json.beqFields_refl a

theorem Json.beqItems_refl : (a : List Json) → Json.beqItems a a = true
  | [] => rfl
  | a :: as => by
      simp only [Json.beqItems, Bool.and_eq_true]
      exact ⟨Json.beq_refl a, Json.beqItems_refl as⟩

theorem Json.beqFields_refl : (a : List (String × Json)) → Json.beqFields a a = true
  | [] => rfl
  | (k, v) :: as => by
      simp only [Json.beqFields, Bool.and_eq_true, beq_iff_eq]
      exact ⟨⟨trivial, Json.beq_refl v⟩, Json.beqFields_refl as⟩

end

instance : DecidableEq Json := fun a b =>
  if h : Json.beq a b = true then isTrue (Json.eq_of_beq a b h)
  else isFalse (fun he => h (he ▸ Json.beq_refl a))

instance : BEq Json := ⟨Json.beq⟩

instance : LawfulBEq Json where
  eq_of_beq := Json.eq_of_beq _ _
  rfl := Json.beq_refl _

/-- Python truthiness of a JSON value: `None`, `False`, `0`, `""`, `[]`, `{}`
are falsy, everything else truthy. -/
def jsonTruthy : Json → Bool
  | .null => false
  | .bool b => b
  | .num n => n != 0
  | .str s => s != ""
  | .arr items => !items.isEmpty
  | .obj fields => !fields.isEmpty

/-- Python `a or b`: `a` when truthy, else `b`. -/
def pyOr (a b : Json) : Json :=
  if jsonTruthy a then a else b

/-- `d.get(k)` on a parsed-JSON dict. `json.loads` keeps the last duplicate
key, hence the reversed scan. This is the projection for receivers known to
be dicts; `.get` on a non-dict receiver raises `AttributeError` in the
source, which `pyGet` below models. -/
def Json.get? : Json → String → Option Json
  | .obj fields, k => (fields.reverse.find? (fun kv => kv.1 = k)).map (·.2)
  | _, _ => none

/-- `d.get(k)` where a missing key yields Python `None` (JSON null). -/
def Json.getd (j : Json) (k : String) : Json :=
  (j.get? k).getD .null

/-- `isinstance(v, dict)`. -/
def Json.isObj : Json → Bool
  | .obj _ => true
  | _ => false

mutual

/-- Python `repr` of a parsed-JSON value (`None`, `True`, quoted strings,
bracketed lists, braced dicts). -/
def pyRepr : Json → String
  | .null => "None"
  | .bool true => "True"
  | .bool false => "False"
  | .num n => toString n
  | .str s => "\x27" ++ s ++ "\x27"
  | .arr items => "[" ++ String.intercalate ", " (pyReprList items) ++ "]"
  | .obj fields => "\x7b" ++ String.intercalate ", " (pyReprFields fields) ++ "\x7d"

/-- `repr` of each element of a list. -/
def pyReprList : List Json → List String
  | [] => []
  | x :: xs => pyRepr x :: pyReprList xs

/-- `repr` of each `key: value` entry of a dict. -/
def pyReprFields : List (String × Json) → List String
  | [] => []
  | (k, v) :: kvs => ("\x27" ++ k ++ "\x27: " ++ pyRepr v) :: pyReprFields kvs

end

/-- Python `str(v)` for a parsed-JSON value: identity on strings, `repr`
otherwise. -/
def pyStr : Json → String
  | .str s => s
  | v => pyRepr v

/-- `str.lower()` as a structural character map (the library's
`String.toLower` is defined by well-founded recursion on byte positions,
which the kernel cannot evaluate; this is the same per-character
lowering). -/
def strLower (s : String) : String := ⟨s.data.map Char.toLower⟩

/-- `str.strip()`: drop leading and trailing whitespace, structurally. -/
def strStrip (s : String) : String :=
  ⟨((s.data.dropWhile Char.isWhitespace).reverse.dropWhile
      Char.isWhitespace).reverse⟩

/-- `_extract_user_text(content)` (search_logger.py:43-55): a string is
returned verbatim; for a list, the `text` field of every dict item that has
one is collected via `str(...)`, then the non-empty bits are stripped and
joined with single spaces; any other shape yields `None`. -/
def extractUserText : Json → Option String
  | .str s => some s
  | .arr items =>
      let text_bits := items.filterMap (fun item =>
        if item.isObj then
          if item.get? "type" = some (.str "text") ∧ (item.get? "text").isSome then
            (item.get? "text").map pyStr
          else if (item.get? "text").isSome then
            (item.get? "text").map pyStr
          else
            none
        else
          none)
      some (String.intercalate " "
        ((text_bits.filter (fun bit => bit != "")).map (fun bit => strStrip bit)))
  | _ => none

/-- `isinstance(v, Iterable)` together with `list(v)`: lists iterate their
elements, strings their characters, dicts their keys; `None`, booleans and
numbers are not iterable. -/
def pyIterElems : Json → Option (List Json)
  | .arr items => some items
  | .str s => some (s.data.map (fun c => Json.str (String.singleton c)))
  | .obj fields => some (fields.map (fun kv => Json.str kv.1))
  | _ => none

/-- Python `len` on the shapes that can reach it here. -/
def pyLen : Json → Nat
  | .arr items => items.length
  | .str s => s.length
  | .obj fields => fields.length
  | _ => 0

/-- A raw JSON value passed into an `Optional[str]` pydantic field, as the
exception-free projection: `None` maps to `None`, a string passes through,
and other values are flattened to their string form. The constructor in
the source actually raises `ValidationError` on such values, which
`validateOptStr` below models; the two agree on every value that
validates. -/
def asOptStr : Json → Option String
  | .null => none
  | .str s => some s
  | v => some (pyStr v)

/-- The `SearchEvent` pydantic model (search_logger.py:17-23): optional
user id / email / display name, required query text, optional free-form
metadata, optional client timestamp. Instants are abstract naturals. -/
structure SearchEvent where
  user_id : Option String := none
  email : Option String := none
  name : Option String := none
  query : String
  metadata : Option (List (String × Json)) := none
  timestamp : Option Nat := none
deriving DecidableEq

/-- `_normalize_timestamp` (search_logger.py:39-41): the client-supplied
timestamp when present (datetimes are always truthy), else the capture
time `now`. -/
def normalizeTimestamp (event : SearchEvent) (now : Nat) : Nat :=
  event.timestamp.getD now

/-- The `messages` value after `payload.get("messages") or []`. -/
def messagesOf (payload : Json) : Json :=
  pyOr (payload.getd "messages") (.arr [])

/-- The scan `for message in reversed(list(messages))` picking the first
entry that is a dict whose `role` equals `"user"`. -/
def lastUserMessage (elems : List Json) : Option Json :=
  elems.reverse.find? (fun m => m.isObj && m.getd "role" == Json.str "user")

/-- `_build_event_from_payload` (search_logger.py:58-100), exception-free
projection: locate the last `role: "user"` message, extract its text,
refuse empty text, then assemble the event's identity fields and metadata
from the payload and its nested `metadata` object. The source can raise on
two inputs this projection totalizes (a non-dict payload, and a non-string
identity field); `buildEventFromPayloadChecked` below models those raise
paths and agrees with this function whenever it returns normally. -/
def buildEventFromPayload (payload : Json) : Option SearchEvent :=
  let messages := messagesOf payload
  match pyIterElems messages with
  | none => none
  | some elems =>
    match lastUserMessage elems with
    | none => none
    | some user_message =>
      let content := extractUserText (user_message.getd "content")
      if content.getD "" = "" then
        none
      else
        let request_metadata : List (String × Json) :=
          match payload.get? "metadata" with
          | some (.obj fields) => fields
          | _ => []
        let event_metadata : List (String × Json) :=
          [("model", payload.getd "model"),
           ("messages_count", .num (pyLen messages)),
           ("stream", .bool (jsonTruthy (payload.getd "stream"))),
           ("conversation_id",
             pyOr (payload.getd "conversation_id")
               ((Json.obj request_metadata).getd "conversation_id"))] ++
          (if request_metadata.isEmpty then []
           else [("request_metadata", Json.obj request_metadata)])
        some
          { user_id := asOptStr (pyOr (payload.getd "user")
              ((Json.obj request_metadata).getd "user_id"))
            email := asOptStr ((Json.obj request_metadata).getd "email")
            name := asOptStr ((Json.obj request_metadata).getd "name")
            query := content.getD ""
            metadata := some event_metadata
            timestamp := none }

/-- A Python exception raised by `_build_event_from_payload`. -/
inductive PyError where
  | attributeError
  | validationError
deriving DecidableEq

/-- `payload.get(k)` with the receiver checked: a dict yields its
(possibly missing) value; any other receiver raises `AttributeError`
(a list, string, number or null body — all reachable, since the route
passes `request.json()` straight into the extractor). -/
def pyGet (j : Json) (k : String) : Except PyError (Option Json) :=
  match j with
  | .obj _ => .ok (j.get? k)
  | _ => .error .attributeError

/-- Pydantic validation of a value passed to an `Optional[str]` field of
`SearchEvent(...)`: `None` and strings validate; any other value raises
`ValidationError` (a dict or list under every pydantic version; numeric
primitives additionally under v2 — modelled uniformly as a validation
error, and exercised below only at a dict value, rejected by every
version). -/
def validateOptStr (v : Json) : Except PyError (Option String) :=
  match v with
  | .null => .ok none
  | .str s => .ok (some s)
  | _ => .error .validationError

/-- `_build_event_from_payload` (search_logger.py:58-100) with its
exception paths modelled: the first `payload.get("messages")` raises
`AttributeError` on a non-dict body (once it succeeds the payload is known
to be a dict, so the later `payload.get` calls cannot raise), and the
`SearchEvent(...)` constructor validates each `Optional[str]` identity
field, raising `ValidationError` on the first non-validating value. Agrees
with the exception-free `buildEventFromPayload` whenever it returns
normally (`buildEventChecked_refines`). -/
def buildEventFromPayloadChecked (payload : Json) :
    Except PyError (Option SearchEvent) :=
  match pyGet payload "messages" with
  | .error e => .error e
  | .ok messagesRaw =>
    let messages := pyOr (messagesRaw.getD .null) (.arr [])
    match pyIterElems messages with
    | none => .ok none
    | some elems =>
      match lastUserMessage elems with
      | none => .ok none
      | some user_message =>
        let content := extractUserText (user_message.getd "content")
        if content.getD "" = "" then
          .ok none
        else
          let request_metadata : List (String × Json) :=
            match payload.get? "metadata" with
            | some (.obj fields) => fields
            | _ => []
          let event_metadata : List (String × Json) :=
            [("model", payload.getd "model"),
             ("messages_count", .num (pyLen messages)),
             ("stream", .bool (jsonTruthy (payload.getd "stream"))),
             ("conversation_id",
               pyOr (payload.getd "conversation_id")
                 ((Json.obj request_metadata).getd "conversation_id"))] ++
            (if request_metadata.isEmpty then []
             else [("request_metadata", Json.obj request_metadata)])
          match validateOptStr (pyOr (payload.getd "user")
              ((Json.obj request_metadata).getd "user_id")),
            validateOptStr ((Json.obj request_metadata).getd "email"),
            validateOptStr ((Json.obj request_metadata).getd "name") with
          | .ok user_id, .ok email, .ok name =>
            .ok (some
              { user_id := user_id
                email := email
                name := name
                query := content.getD ""
                metadata := some event_metadata
                timestamp := none })
          | .error e, _, _ => .error e
          | _, .error e, _ => .error e
          | _, _, .error e => .error e

/-! ## The identity and event store

`store_search_event` (search_logger.py:103-160) resolves an identity in the
`users` collection and appends to the `searches` collection. Documents get
abstract `Nat` identifiers from a counter in the `DB` state; Mongo's
`find_one_and_update(..., upsert=True, return_document=AFTER)` is one
atomic transition on that state. -/

/-- Truthiness of Python `Optional[str]`: `None` and `""` are falsy. -/
def optTruthy : Option String → Bool
  | none => false
  | some s => s != ""

/-- `s or default` on `Optional[str]`. -/
def pyOrStr (o : Option String) (dflt : String) : String :=
  match o with
  | some s => if s = "" then dflt else s
  | none => dflt

/-- `email.strip().lower()`. -/
def normalizeEmail (email : String) : String :=
  strLower (strStrip email)

/-- A document of the `users` collection. -/
structure UserDoc where
  _id : Nat
  name : Option String := none
  email : Option String := none
  external_user_id : Option String := none
  created_at : Nat
  updated_at : Nat
deriving DecidableEq

/-- A document of the `searches` collection. -/
structure SearchDoc where
  _id : Nat
  user_id : Nat
  query : String
  metadata : List (String × Json)
  created_at : Nat
deriving DecidableEq

/-- The two collections plus a fresh-identifier counter. -/
structure DB where
  users : List UserDoc := []
  searches : List SearchDoc := []
  nextId : Nat := 0
deriving DecidableEq

/-- The `user_filter` built at search_logger.py:111-115: on the normalized
email when the event has one, else on the external user id when the event
has one; an empty filter is `none`. -/
inductive UserFilter where
  | byEmail (e : String)
  | byExternalId (i : String)
deriving DecidableEq

/-- `user_filter` construction: email takes priority, both tested with
Python truthiness (`if event.email: ... elif event.user_id: ...`). -/
def userFilterOf (event : SearchEvent) : Option UserFilter :=
  if optTruthy event.email then
    some (.byEmail (normalizeEmail (event.email.getD "")))
  else if optTruthy event.user_id then
    some (.byExternalId (event.user_id.getD ""))
  else
    none

/-- The `update_doc` built at search_logger.py:120-134: `$setOnInsert` the
creation time, `$set` the update time, and `$set` each of name, normalized
email and external user id that is truthy on the event. -/
structure UpdateDoc where
  setOnInsertCreatedAt : Nat
  setUpdatedAt : Nat
  setName : Option String := none
  setEmail : Option String := none
  setExternalUserId : Option String := none
deriving DecidableEq

/-- `update_doc` construction from the event and the event timestamp. -/
def updateDocOf (event : SearchEvent) (event_ts : Nat) : UpdateDoc :=
  { setOnInsertCreatedAt := event_ts
    setUpdatedAt := event_ts
    setName := if optTruthy event.name then event.name else none
    setEmail :=
      if optTruthy event.email then some (normalizeEmail (event.email.getD ""))
      else none
    setExternalUserId := if optTruthy event.user_id then event.user_id else none }

/-- Whether a user document matches the filter. -/
def filterMatches : UserFilter → UserDoc → Bool
  | .byEmail e, d => d.email == some e
  | .byExternalId i, d => d.external_user_id == some i

/-- Applying the `$set` part of an update to an existing document: fields
present in `$set` are overwritten, the rest (in particular `created_at`)
are untouched. -/
def applySet (u : UpdateDoc) (d : UserDoc) : UserDoc :=
  { d with
    updated_at := u.setUpdatedAt
    name := match u.setName with | some n => some n | none => d.name
    email := match u.setEmail with | some e => some e | none => d.email
    external_user_id :=
      match u.setExternalUserId with | some i => some i | none => d.external_user_id }

/-- The document Mongo inserts on an upsert miss: the filter's equality
fields, then `$setOnInsert`, then `$set` (which may overwrite them). -/
def upsertInsertDoc (f : UserFilter) (u : UpdateDoc) (id : Nat) : UserDoc :=
  let base : UserDoc :=
    { _id := id
      created_at := u.setOnInsertCreatedAt
      updated_at := u.setUpdatedAt }
  let base :=
    match f with
    | .byEmail e => { base with email := some e }
    | .byExternalId i => { base with external_user_id := some i }
  applySet u base

/-- Replace the first element satisfying `p` by its image under `g`,
returning the new list and that image; `none` when nothing matches. -/
def updateFirst (p : UserDoc → Bool) (g : UserDoc → UserDoc) :
    List UserDoc → Option (List UserDoc × UserDoc)
  | [] => none
  | d :: ds =>
    if p d then some (g d :: ds, g d)
    else
      match updateFirst p g ds with
      | some (ds2, r) => some (d :: ds2, r)
      | none => none

/-- `users.find_one_and_update(filter, update, upsert=True,
return_document=AFTER)` as one atomic transition: update the first matching
document in place and return it, or insert the upsert document with a fresh
identifier. Returns the post-update document, the new collection and the
new counter. -/
def findOneAndUpdateUpsert (f : UserFilter) (u : UpdateDoc)
    (users : List UserDoc) (nextId : Nat) : UserDoc × List UserDoc × Nat :=
  match updateFirst (filterMatches f) (applySet u) users with
  | some (users2, r) => (r, users2, nextId)
  | none =>
    let newDoc := upsertInsertDoc f u nextId
    (newDoc, users ++ [newDoc], nextId + 1)

/-- The value returned by `store_search_event` (identifiers kept abstract
instead of stringified ObjectIds). -/
structure StoreResult where
  ok : Bool
  search_id : Nat
  user_id : Nat
deriving DecidableEq

/-- The identity-resolution phase of `store_search_event`
(search_logger.py:111-149): with a non-empty filter, one atomic upsert;
with an empty filter, unconditionally insert an anonymous document
(`name or "Anonymous"`) without any lookup. Returns the resolved document,
the new `users` collection and the new counter. -/
def resolveUser (event : SearchEvent) (event_ts : Nat)
    (users : List UserDoc) (nextId : Nat) : UserDoc × List UserDoc × Nat :=
  match userFilterOf event with
  | some f => findOneAndUpdateUpsert f (updateDocOf event event_ts) users nextId
  | none =>
    let user_doc : UserDoc :=
      { _id := nextId
        name := some (pyOrStr event.name "Anonymous")
        created_at := event_ts
        updated_at := event_ts }
    (user_doc, users ++ [user_doc], nextId + 1)

/-- `store_search_event` (search_logger.py:103-158): compute the event
timestamp once, resolve the identity, then append one search document
carrying the resolved identity's id, the query, the metadata
(`event.metadata or \x7b\x7d`) and the same timestamp. -/
def storeSearchEvent (event : SearchEvent) (now : Nat) (db : DB) :
    StoreResult × DB :=
  let event_ts := normalizeTimestamp event now
  let resolved := resolveUser event event_ts db.users db.nextId
  let user_doc := resolved.1
  let users2 := resolved.2.1
  let next2 := resolved.2.2
  let search_doc : SearchDoc :=
    { _id := next2
      user_id := user_doc._id
      query := event.query
      metadata := event.metadata.getD []
      created_at := event_ts }
  ({ ok := true, search_id := search_doc._id, user_id := user_doc._id },
   { users := users2
     searches := db.searches ++ [search_doc]
     nextId := next2 + 1 })

/-! ## Header sanitizers -/

/-- The hop-by-hop set removed by `_filter_headers`
(search_logger.py:163-174). -/
def hopByHop : List String :=
  ["connection", "keep-alive", "proxy-authenticate", "proxy-authorization",
   "te", "trailers", "transfer-encoding", "upgrade", "content-length"]

/-- `filtered[key] = value` on an insertion-ordered dict: overwrite in
place when the exact key exists, else append. -/
def dictInsert (d : List (String × String)) (k v : String) :
    List (String × String) :=
  if d.any (fun kv => kv.1 = k) then
    d.map (fun kv => if kv.1 = k then (k, v) else kv)
  else
    d ++ [(k, v)]

/-- `_filter_headers` (search_logger.py:163-179): keep every pair whose
lowercased name is outside the hop-by-hop set, in input order. -/
def filterHeaders (headers : List (String × String)) : List (String × String) :=
  headers.foldl
    (fun filtered kv =>
      if strLower kv.1 ∈ hopByHop then filtered
      else dictInsert filtered kv.1 kv.2)
    []

/-- The exclusion set of `_forward_headers` (search_logger.py:183). -/
def forwardExcluded : List String := ["host", "content-length"]

/-- `_forward_headers` (search_logger.py:182-188): keep every pair whose
lowercased name is neither `host` nor `content-length`, in input order. -/
def forwardHeaders (headers : List (String × String)) : List (String × String) :=
  headers.foldl
    (fun outgoing kv =>
      if strLower kv.1 ∈ forwardExcluded then outgoing
      else dictInsert outgoing kv.1 kv.2)
    []

/-! ## Forwarding and routing

The handlers are modelled as functions from the parsed request plus two
oracles — the outcome of the synchronous `store_search_event` call and the
upstream's behaviour — to an outcome and a trace of the actions the handler
performs, in order. -/

/-- The upstream's behaviour for one forwarded request: the connection
attempt fails (connection refused, DNS failure, timeout — an
`httpx.RequestError`), or a response arrives with a status, headers and
body chunks. -/
inductive UpstreamResult where
  | connectFail
  | ok (status : Nat) (headers : List (String × String)) (chunks : List String)
deriving DecidableEq

/-- The response the client finally receives. -/
structure ClientResponse where
  status : Nat
  headers : List (String × String) := []
  body : String := ""
  streamed : Bool := false
deriving DecidableEq

/-- What a route handler's body does: return a response, raise an
`HTTPException`, let an `httpx.RequestError` escape, or let any other
exception escape unhandled. -/
inductive HandlerOutcome where
  | response (r : ClientResponse)
  | httpError (status : Nat) (detail : String)
  | requestError
  | unhandledError
deriving DecidableEq

/-- The fixed detail of the 502 produced by the registered
`httpx.RequestError` exception handler (search_logger.py:282-285). -/
def fixedUpstreamMessage : String := "Upstream agent service is unavailable"

/-- The application-level mapping from a handler outcome to the client's
response: a raised `HTTPException` is rendered with its status and detail,
an escaped `httpx.RequestError` hits the registered handler
(search_logger.py:282-285) giving a 502 with the fixed message, and any
other unhandled exception is rendered by the framework default as a plain
500 internal server error. -/
def appRespond : HandlerOutcome → ClientResponse
  | .response r => r
  | .httpError status detail => { status := status, body := detail }
  | .requestError => { status := 502, body := fixedUpstreamMessage }
  | .unhandledError => { status := 500, body := "Internal Server Error" }

/-- The mode decision of `_forward_json` (search_logger.py:219): stream
when the payload's `stream` field is truthy or the `Accept` header starts
with `text/event-stream`. -/
def streamMode (payload : Json) (accept : String) : Bool :=
  jsonTruthy (payload.getd "stream") || accept.startsWith "text/event-stream"

/-- `_forward_json` (search_logger.py:216-241): decide the mode, send the
request upstream (with `forwardHeaders`-sanitized request headers); a
connection failure raises `httpx.RequestError` out of the handler; a
response is relayed with `filterHeaders`-sanitized headers and its chunks
concatenated in arrival order (streamed chunk-by-chunk in streaming mode,
as one buffered body otherwise). -/
def forwardJson (payload : Json) (accept : String) (upstream : UpstreamResult) :
    HandlerOutcome :=
  let stream := streamMode payload accept
  match upstream with
  | .connectFail => .requestError
  | .ok status hs chunks =>
      .response
        { status := status
          headers := filterHeaders hs
          body := String.join chunks
          streamed := stream }

/-- Outcome of the synchronous `store_search_event(event)` call inside the
passthrough route: success; a `PyMongoError`, which `store_search_event`
wraps into `HTTPException(500, "Mongo error: ...")` (search_logger.py:159-160);
or any other exception. -/
inductive StoreOutcome where
  | success
  | mongoError (msg : String)
  | otherError
deriving DecidableEq

/-- The observable steps of the passthrough handler, in execution order. -/
inductive RouteAction where
  | storeStart
  | storeReturn
  | forwardStart
deriving DecidableEq

/-- `proxy_chat_completions` (search_logger.py:256-269). `body = none`
models a request whose bytes are not valid JSON: `request.json()` raises
`json.JSONDecodeError`, which nothing in the file handles. Otherwise the
event is extracted; if one results, `store_search_event` is called
synchronously — a `PyMongoError` surfaces as `HTTPException(500)` and is
re-raised by `except HTTPException: raise`, any other exception is logged
and swallowed — and only then is the forward performed. The second
component is the trace of actions in the order the handler performs
them. -/
def proxyChatCompletions (body : Option Json) (store : StoreOutcome)
    (accept : String) (upstream : UpstreamResult) :
    HandlerOutcome × List RouteAction :=
  match body with
  | none => (.unhandledError, [])
  | some payload =>
    match buildEventFromPayload payload with
    | none => (forwardJson payload accept upstream, [.forwardStart])
    | some _ =>
      match store with
      | .mongoError msg =>
          (.httpError 500 ("Mongo error: " ++ msg), [.storeStart, .storeReturn])
      | _ =>
          (forwardJson payload accept upstream,
           [.storeStart, .storeReturn, .forwardStart])

/-- Pydantic validation of one `Optional[str]` field of the `SearchEvent`
model: absent or `null` validates to `None`, a string passes, any other
value is a validation error. -/
def parseOptStrField (payload : Json) (k : String) : Option (Option String) :=
  match payload.get? k with
  | none => some none
  | some .null => some none
  | some (.str s) => some (some s)
  | some _ => none

/-- Pydantic validation of a `/log-search` request body against the
`SearchEvent` model (search_logger.py:17-23, 211-213): `query` is the only
required field and must be a string (presence is required, non-emptiness is
not); the identity fields are optional strings, `metadata` an optional
object, `timestamp` an optional instant (modelled numerically). -/
def parseSearchEvent (payload : Json) : Option SearchEvent :=
  match payload.get? "query" with
  | some (.str q) =>
    match parseOptStrField payload "user_id", parseOptStrField payload "email",
        parseOptStrField payload "name" with
    | some uid, some email, some name =>
      let md : Option (Option (List (String × Json))) :=
        match payload.get? "metadata" with
        | none => some none
        | some .null => some none
        | some (.obj fields) => some (some fields)
        | some _ => none
      let ts : Option (Option Nat) :=
        match payload.get? "timestamp" with
        | none => some none
        | some .null => some none
        | some (.num n) => if n < 0 then none else some (some n.toNat)
        | some _ => none
      match md, ts with
      | some md, some ts =>
          some { user_id := uid, email := email, name := name, query := q
                 metadata := md, timestamp := ts }
      | _, _ => none
    | _, _, _ => none
  | _ => none

/-- `log_search` (search_logger.py:211-213): validate the body against the
`SearchEvent` model (a validation failure is rejected before the handler
runs) and store the event synchronously. -/
def logSearch (payload : Json) (now : Nat) (db : DB) :
    Option (StoreResult × DB) :=
  (parseSearchEvent payload).map (fun e => storeSearchEvent e now db)

/-! ## Shared lemmas and sample inputs -/

/-- A minimal chat-completions payload with one user message. -/
def samplePayload : Json :=
  Json.obj [("messages", .arr [Json.obj [("role", .str "user"), ("content", .str "hi")]])]

theorem dictInsert_eq_append (d : List (String × String)) (k v : String)
    (h : d.any (fun kv => kv.1 = k) = false) :
    dictInsert d k v = d ++ [(k, v)] := by
  simp only [dictInsert, h]
  simp

theorem foldl_dictInsert_eq_filter (skipSet : List String)
    (hs : List (String × String)) :
    ∀ acc : List (String × String),
      (∀ kv ∈ hs, acc.any (fun kv2 => kv2.1 = kv.1) = false) →
      (hs.map Prod.fst).Nodup →
      hs.foldl
          (fun f kv => if strLower kv.1 ∈ skipSet then f else dictInsert f kv.1 kv.2)
          acc
        = acc ++ hs.filter (fun kv => strLower kv.1 ∉ skipSet) := by
  induction hs with
  | nil => intro acc _ _; simp
  | cons kv rest ih =>
    intro acc hacc hnd
    rw [List.map_cons, List.nodup_cons] at hnd
    have hndTail : (rest.map Prod.fst).Nodup := hnd.2
    have hkvNotTail : kv.1 ∉ rest.map Prod.fst := hnd.1
    by_cases hskip : strLower kv.1 ∈ skipSet
    · have ihApplied := ih acc
        (fun kv' h' => hacc kv' (List.mem_cons_of_mem _ h')) hndTail
      simp [List.foldl_cons, hskip, ihApplied, List.filter_cons]
    · have hins : dictInsert acc kv.1 kv.2 = acc ++ [(kv.1, kv.2)] :=
        dictInsert_eq_append acc kv.1 kv.2 (hacc kv (List.mem_cons_self _ _))
      have haccNew : ∀ kv' ∈ rest,
          (acc ++ [(kv.1, kv.2)]).any (fun kv2 => kv2.1 = kv'.1) = false := by
        intro kv' h'
        have h1 := hacc kv' (List.mem_cons_of_mem _ h')
        have h2 : kv.1 ≠ kv'.1 := by
          intro he
          exact hkvNotTail (he ▸ List.mem_map_of_mem Prod.fst h')
        simp [List.any_append, h1, h2]
      have ihApplied := ih (acc ++ [(kv.1, kv.2)]) haccNew hndTail
      simp [List.foldl_cons, hskip, hins, ihApplied, List.filter_cons]

theorem filterHeaders_eq_filter (hs : List (String × String))
    (hnd : (hs.map Prod.fst).Nodup) :
    filterHeaders hs = hs.filter (fun kv => strLower kv.1 ∉ hopByHop) := by
  have := foldl_dictInsert_eq_filter hopByHop hs [] (by simp) hnd
  simpa [filterHeaders] using this

theorem forwardHeaders_eq_filter (hs : List (String × String))
    (hnd : (hs.map Prod.fst).Nodup) :
    forwardHeaders hs = hs.filter (fun kv => strLower kv.1 ∉ forwardExcluded) := by
  have := foldl_dictInsert_eq_filter forwardExcluded hs [] (by simp) hnd
  simpa [forwardHeaders] using this

/-! ## Claim theorems -/

/-- C4 counterexample: the outbound sanitizer `_forward_headers` does not
remove the hop-by-hop set — a `Connection` header survives sanitization for
the outbound request, refuting the claim that the fixed hop-by-hop set is
removed in both directions. -/
theorem c4_forward_keeps_connection :
    forwardHeaders [("Connection", "close")] = [("Connection", "close")] ∧
    "connection" ∈ hopByHop := by
  constructor
  · decide
  · decide

/-- C4 (amended): the response-direction sanitizer `_filter_headers`
removes exactly the fixed hop-by-hop set, case-insensitively; the
outbound-request sanitizer `_forward_headers` removes exactly `host` and
`content-length`, case-insensitively; both preserve every other header
unaltered and in its relative input order (for a header set, i.e. distinct
names). -/
theorem c4_sanitizer_directions (hs : List (String × String))
    (hnd : (hs.map Prod.fst).Nodup) :
    filterHeaders hs = hs.filter (fun kv => strLower kv.1 ∉ hopByHop) ∧
    forwardHeaders hs = hs.filter (fun kv => strLower kv.1 ∉ forwardExcluded) :=
  ⟨filterHeaders_eq_filter hs hnd, forwardHeaders_eq_filter hs hnd⟩

/-- C4 witness: the sanitizer characterization applied to a concrete
header set. -/
theorem c4_sanitizer_directions_witness :
    ([("Connection", "close"), ("X-Api-Key", "1"), ("Host", "h")].map
        (Prod.fst (α := String) (β := String))).Nodup ∧
    (filterHeaders [("Connection", "close"), ("X-Api-Key", "1"), ("Host", "h")]
        = [("Connection", "close"), ("X-Api-Key", "1"), ("Host", "h")].filter
            (fun kv => strLower kv.1 ∉ hopByHop) ∧
     forwardHeaders [("Connection", "close"), ("X-Api-Key", "1"), ("Host", "h")]
        = [("Connection", "close"), ("X-Api-Key", "1"), ("Host", "h")].filter
            (fun kv => strLower kv.1 ∉ forwardExcluded)) :=
  ⟨by decide, c4_sanitizer_directions _ (by decide)⟩

/-- C9: an upstream connection failure (connection refused, DNS failure,
timeout — `httpx.RequestError`) yields the registered handler's 502 with
the one fixed message, identically for every payload and `Accept` header
(hence in both streaming and buffered mode) and identically on the raw
passthrough; the 502 body is exactly the fixed message, never partial
upstream content. -/
theorem c9_upstream_failure_is_fixed_502 :
    ∀ (payload : Json) (accept : String),
      appRespond (forwardJson payload accept .connectFail)
        = { status := 502, body := fixedUpstreamMessage } ∧
      appRespond .requestError = { status := 502, body := fixedUpstreamMessage } := by
  intro payload accept
  constructor <;> rfl

/-- C7 counterexample: a chat-completions request whose body is not
parseable as JSON makes `request.json()` raise an unhandled
`json.JSONDecodeError`, which the framework renders as a 500 — a server
error, not the claimed 4xx client error. -/
theorem c7_unparseable_body_is_500 :
    (appRespond (proxyChatCompletions none .success "" .connectFail).1).status = 500 ∧
    ¬(400 ≤ (appRespond (proxyChatCompletions none .success "" .connectFail).1).status ∧
      (appRespond (proxyChatCompletions none .success "" .connectFail).1).status < 500) := by
  constructor
  · rfl
  · intro h
    rw [show (appRespond (proxyChatCompletions none .success ""
        .connectFail).1).status = 500 from rfl] at h
    omega

/-- C7 (amended): for every request to the chat-completions route whose
body is not parseable as JSON, the JSON decode error escapes the handler
unhandled and the framework responds 500 (an internal server error), for
every store outcome, `Accept` header and upstream behaviour. -/
theorem c7_unparseable_body_unhandled :
    ∀ (store : StoreOutcome) (accept : String) (upstream : UpstreamResult),
      (proxyChatCompletions none store accept upstream).1 = .unhandledError ∧
      appRespond (proxyChatCompletions none store accept upstream).1
        = { status := 500, body := "Internal Server Error" } := by
  intro store accept upstream
  constructor <;> rfl

/-- C1: on the passthrough route a `PyMongoError` during event capture is
wrapped into `HTTPException(500)` by `store_search_event` and re-raised by
the route's `except HTTPException: raise`, so the client receives the 500
instead of the proxied upstream result — the code contradicts the claimed
(and spec-stated, and intended by the route's own
"Unable to persist search event" swallow branch) log-and-swallow policy.
Evaluated at the failing input: a one-user-message payload, a Mongo failure
during capture and a healthy upstream. -/
theorem c1_store_failure_reaches_client :
    appRespond (proxyChatCompletions (some samplePayload) (.mongoError "boom") ""
        (.ok 200 [] ["upstream-body"])).1
      = { status := 500, body := "Mongo error: boom" } ∧
    appRespond (forwardJson samplePayload "" (.ok 200 [] ["upstream-body"]))
      = { status := 200, body := "upstream-body" } ∧
    appRespond (proxyChatCompletions (some samplePayload) .otherError ""
        (.ok 200 [] ["upstream-body"])).1
      = { status := 200, body := "upstream-body" } := by
  refine ⟨rfl, ?_, ?_⟩ <;> rfl

/-- The C2 property "the forwarding of the request to upstream does not
wait for the store operation to complete": wherever a completed store call
and the start of the forward both appear in a handler trace, the forward
must have started strictly before the store completed. -/
def forwardDoesNotWaitForStore (trace : List RouteAction) : Prop :=
  ∀ i j, trace.get? i = some RouteAction.storeReturn →
    trace.get? j = some RouteAction.forwardStart → j < i

/-- C2 counterexample: on a captured event the handler's trace is
store-start, store-return, then forward-start — the store call runs and
completes before the forward begins, refuting the claimed concurrency. -/
theorem c2_store_completes_before_forward :
    (proxyChatCompletions (some samplePayload) .success ""
        (.ok 200 [] ["upstream-body"])).2
      = [.storeStart, .storeReturn, .forwardStart] ∧
    ¬ forwardDoesNotWaitForStore
        (proxyChatCompletions (some samplePayload) .success ""
          (.ok 200 [] ["upstream-body"])).2 := by
  constructor
  · rfl
  · intro h
    have := h 1 2 rfl rfl
    omega

/-- C2 (amended): event capture on the passthrough route is synchronous
and serializes before the forward: whenever an event is extracted, the
trace starts with the store call and its completion, and the forward (when
it happens at all) begins only afterwards. -/
theorem c2_capture_serializes_before_forward
    (payload : Json) (store : StoreOutcome) (accept : String)
    (upstream : UpstreamResult)
    (h : (buildEventFromPayload payload).isSome = true) :
    (proxyChatCompletions (some payload) store accept upstream).2
        = [.storeStart, .storeReturn] ∨
    (proxyChatCompletions (some payload) store accept upstream).2
        = [.storeStart, .storeReturn, .forwardStart] := by
  unfold proxyChatCompletions
  cases hb : buildEventFromPayload payload with
  | none => rw [hb] at h; simp at h
  | some e => simp only [hb]; cases store <;> simp

/-- C2 witness: the serialization fact at a concrete captured event. -/
theorem c2_capture_serializes_before_forward_witness :
    (proxyChatCompletions (some samplePayload) .success ""
        (.ok 200 [] ["upstream-body"])).2
        = [.storeStart, .storeReturn] ∨
    (proxyChatCompletions (some samplePayload) .success ""
        (.ok 200 [] ["upstream-body"])).2
        = [.storeStart, .storeReturn, .forwardStart] :=
  c2_capture_serializes_before_forward samplePayload .success ""
    (.ok 200 [] ["upstream-body"]) (by rfl)

/-- A payload whose earlier user message carries text but whose last
user-role message has empty text. -/
def twoUserPayload : Json :=
  Json.obj [("messages", .arr
    [Json.obj [("role", .str "user"), ("content", .str "hi")],
     Json.obj [("role", .str "user"), ("content", .str "")]])]

theorem buildEvent_none_of_not_iterable (payload : Json)
    (h : pyIterElems (messagesOf payload) = none) :
    buildEventFromPayload payload = none := by
  unfold buildEventFromPayload
  simp only [h]

theorem buildEvent_none_of_no_user (payload : Json) (elems : List Json)
    (h1 : pyIterElems (messagesOf payload) = some elems)
    (h2 : lastUserMessage elems = none) :
    buildEventFromPayload payload = none := by
  unfold buildEventFromPayload
  simp only [h1, h2]

theorem buildEvent_none_of_empty_text (payload : Json) (elems : List Json)
    (m : Json)
    (h1 : pyIterElems (messagesOf payload) = some elems)
    (h2 : lastUserMessage elems = some m)
    (h3 : (extractUserText (m.getd "content")).getD "" = "") :
    buildEventFromPayload payload = none := by
  unfold buildEventFromPayload
  simp only [h1, h2]
  rw [if_pos h3]

theorem buildEvent_query_of_text (payload : Json) (elems : List Json)
    (m : Json) (t : String)
    (h1 : pyIterElems (messagesOf payload) = some elems)
    (h2 : lastUserMessage elems = some m)
    (h3 : extractUserText (m.getd "content") = some t)
    (h4 : t ≠ "") :
    (buildEventFromPayload payload).map (fun e => e.query) = some t := by
  unfold buildEventFromPayload
  simp only [h1, h2, h3]
  rw [if_neg (by simpa using h4)]
  simp

/-- C5 counterexample: `twoUserPayload` contains a user-role message with
non-empty text `"hi"`, yet the extractor returns no event, because the last
user-role message has empty text — refuting the claim that the query is the
text of the last user message carrying non-empty text. -/
theorem c5_last_user_text_counterexample :
    buildEventFromPayload twoUserPayload = none ∧
    extractUserText
        ((Json.obj [("role", .str "user"), ("content", .str "hi")]).getd "content")
      = some "hi" ∧
    ("hi" : String) ≠ "" := by
  refine ⟨rfl, rfl, by decide⟩

/-- C5 (amended): the extractor scans for the last user-role message
regardless of its text. When that message's extracted text is non-empty,
the event's query equals that text; when there is no user-role message, or
the last user-role message's extracted text is empty (even if an earlier
user message carried text), no event results. -/
theorem c5_query_is_last_user_text :
    (∀ (payload : Json) (elems : List Json) (m : Json) (t : String),
        pyIterElems (messagesOf payload) = some elems →
        lastUserMessage elems = some m →
        extractUserText (m.getd "content") = some t →
        t ≠ "" →
        (buildEventFromPayload payload).map (fun e => e.query) = some t)
  ∧ (∀ (payload : Json) (elems : List Json),
        pyIterElems (messagesOf payload) = some elems →
        lastUserMessage elems = none →
        buildEventFromPayload payload = none)
  ∧ (∀ (payload : Json) (elems : List Json) (m : Json),
        pyIterElems (messagesOf payload) = some elems →
        lastUserMessage elems = some m →
        (extractUserText (m.getd "content")).getD "" = "" →
        buildEventFromPayload payload = none) :=
  ⟨buildEvent_query_of_text, buildEvent_none_of_no_user,
   buildEvent_none_of_empty_text⟩

/-- C5 witness: the positive direction applied to a concrete one-message
payload. -/
theorem c5_query_is_last_user_text_witness :
    (buildEventFromPayload samplePayload).map (fun e => e.query) = some "hi" :=
  c5_query_is_last_user_text.1 samplePayload
    [Json.obj [("role", .str "user"), ("content", .str "hi")]]
    (Json.obj [("role", .str "user"), ("content", .str "hi")]) "hi"
    rfl rfl rfl (by decide)

/-- The event the extractor builds from `samplePayload`. -/
def sampleEvent : SearchEvent :=
  { query := "hi"
    metadata := some [("model", .null), ("messages_count", .num 1),
      ("stream", .bool false), ("conversation_id", .null)] }

/-- C8 counterexample: the `SearchEvent` pydantic model only requires the
`query` field to be present, not non-empty — `/log-search` with
`{"query": ""}` constructs a `SearchEvent` with empty query and stores a
search record with empty query, refuting the claimed invariant for
payloads submitted directly to `/log-search`. -/
theorem c8_empty_query_accepted_on_log_search :
    parseSearchEvent (Json.obj [("query", .str "")]) = some { query := "" } ∧
    (logSearch (Json.obj [("query", .str "")]) 0 {}).map
        (fun r => r.2.searches.map (fun s => s.query))
      = some [""] := by
  constructor <;> rfl

/-- C8 (amended): every SearchEvent constructed by the event extractor has
a non-empty query (empty extracted text yields no event); payloads
submitted directly to `/log-search`, however, are only required to carry a
present string `query` — an explicitly empty query is accepted. -/
theorem c8_query_nonempty_for_extractor :
    (∀ (payload : Json) (e : SearchEvent),
        buildEventFromPayload payload = some e → e.query ≠ "")
  ∧ parseSearchEvent (Json.obj [("query", .str "")]) = some { query := "" } := by
  refine ⟨?_, rfl⟩
  intro payload e h
  unfold buildEventFromPayload at h
  cases h1 : pyIterElems (messagesOf payload) with
  | none => simp only [h1] at h; exact absurd h (by simp)
  | some elems =>
    simp only [h1] at h
    cases h2 : lastUserMessage elems with
    | none => simp only [h2] at h; exact absurd h (by simp)
    | some m =>
      simp only [h2] at h
      by_cases h3 : (extractUserText (m.getd "content")).getD "" = ""
      · rw [if_pos h3] at h; simp at h
      · rw [if_neg h3] at h
        simp only [Option.some.injEq] at h
        rw [← h]
        simpa using h3

/-- C8 witness: the non-emptiness fact applied to the concrete sample
payload and its extracted event. -/
theorem c8_query_nonempty_witness : sampleEvent.query ≠ "" :=
  c8_query_nonempty_for_extractor.1 samplePayload sampleEvent rfl

theorem updateFirst_eq_none (p : UserDoc → Bool) (g : UserDoc → UserDoc) :
    ∀ users : List UserDoc, (∀ d ∈ users, p d = false) →
      updateFirst p g users = none
  | [], _ => rfl
  | d :: ds, h => by
    have hd := h d (List.mem_cons_self _ _)
    have ih := updateFirst_eq_none p g ds
      (fun d' h' => h d' (List.mem_cons_of_mem _ h'))
    simp [updateFirst, hd, ih]

theorem updateFirst_first_match (p : UserDoc → Bool) (g : UserDoc → UserDoc) :
    ∀ (pre : List UserDoc) (d : UserDoc) (post : List UserDoc),
      (∀ d' ∈ pre, p d' = false) → p d = true →
      updateFirst p g (pre ++ d :: post) = some (pre ++ g d :: post, g d)
  | [], d, post, _, hd => by simp [updateFirst, hd]
  | d' :: pre, d, post, hpre, hd => by
    have h' := hpre d' (List.mem_cons_self _ _)
    have ih := updateFirst_first_match p g pre d post
      (fun x hx => hpre x (List.mem_cons_of_mem _ hx)) hd
    simp [updateFirst, h', ih]

theorem updateFirst_some_spec (p : UserDoc → Bool) (g : UserDoc → UserDoc) :
    ∀ (users l : List UserDoc) (r : UserDoc),
      updateFirst p g users = some (l, r) →
      ∃ d, p d = true ∧ r = g d ∧ d ∈ users
  | [], l, r, h => by simp [updateFirst] at h
  | d :: ds, l, r, h => by
    unfold updateFirst at h
    by_cases hd : p d = true
    · rw [if_pos hd] at h
      simp only [Option.some.injEq, Prod.mk.injEq] at h
      exact ⟨d, hd, h.2.symm, List.mem_cons_self _ _⟩
    · rw [if_neg hd] at h
      rcases hrec : updateFirst p g ds with - | ⟨ds2, r2⟩
      · rw [hrec] at h; exact absurd h (by simp)
      · rw [hrec] at h
        simp only [Option.some.injEq, Prod.mk.injEq] at h
        obtain ⟨d0, hp, hr, hmem⟩ := updateFirst_some_spec p g ds ds2 r2 hrec
        exact ⟨d0, hp, h.2 ▸ hr, List.mem_cons_of_mem _ hmem⟩

theorem findOneAndUpdateUpsert_updated_at (f : UserFilter) (u : UpdateDoc)
    (users : List UserDoc) (nextId : Nat) :
    (findOneAndUpdateUpsert f u users nextId).1.updated_at = u.setUpdatedAt := by
  unfold findOneAndUpdateUpsert
  rcases hrec : updateFirst (filterMatches f) (applySet u) users with - | ⟨l, r⟩
  · cases f <;> simp [upsertInsertDoc, applySet]
  · obtain ⟨d, -, hr, -⟩ :=
      updateFirst_some_spec (filterMatches f) (applySet u) users l r hrec
    simp [hr, applySet]

theorem findOneAndUpdateUpsert_fresh_created_at (f : UserFilter) (u : UpdateDoc)
    (users : List UserDoc) (nextId : Nat)
    (h : (findOneAndUpdateUpsert f u users nextId).2.2 ≠ nextId) :
    (findOneAndUpdateUpsert f u users nextId).1.created_at
      = u.setOnInsertCreatedAt := by
  unfold findOneAndUpdateUpsert at h ⊢
  rcases hrec : updateFirst (filterMatches f) (applySet u) users with - | ⟨l, r⟩
  · cases f <;> simp [upsertInsertDoc, applySet]
  · rw [hrec] at h
    exact absurd rfl h

/-- C3: identity resolution — the filter is on normalized lowercase email
when the event has one, else on the external user id when it has one; with
a filter, the single atomic find-and-update-or-insert updates the first
match in place (leaving `created_at` untouched, setting `updated_at` and
each non-empty identity field, returning the post-update document) or
inserts a fresh document carrying the `$setOnInsert` creation time; with no
filter it inserts a fresh anonymous record (name defaulting to
`"Anonymous"`) without any lookup; and posting `/log-search` twice with the
same email in different letter case yields two search records referencing
one identity whose stored email is lowercase. -/
theorem c3_identity_resolution :
    (∀ e : SearchEvent, optTruthy e.email = true →
        userFilterOf e = some (.byEmail (normalizeEmail (e.email.getD ""))))
  ∧ (∀ e : SearchEvent, optTruthy e.email = false → optTruthy e.user_id = true →
        userFilterOf e = some (.byExternalId (e.user_id.getD "")))
  ∧ (∀ (f : UserFilter) (u : UpdateDoc) (pre : List UserDoc) (d : UserDoc)
        (post : List UserDoc) (nextId : Nat),
        (∀ d' ∈ pre, filterMatches f d' = false) → filterMatches f d = true →
        findOneAndUpdateUpsert f u (pre ++ d :: post) nextId
          = (applySet u d, pre ++ applySet u d :: post, nextId))
  ∧ (∀ (f : UserFilter) (u : UpdateDoc) (users : List UserDoc) (nextId : Nat),
        (∀ d ∈ users, filterMatches f d = false) →
        findOneAndUpdateUpsert f u users nextId
          = (upsertInsertDoc f u nextId, users ++ [upsertInsertDoc f u nextId],
             nextId + 1))
  ∧ (∀ (e : SearchEvent) (ts : Nat) (d : UserDoc),
        (applySet (updateDocOf e ts) d).created_at = d.created_at ∧
        (applySet (updateDocOf e ts) d).updated_at = ts ∧
        (applySet (updateDocOf e ts) d).name
          = (if optTruthy e.name then e.name else d.name) ∧
        (applySet (updateDocOf e ts) d).email
          = (if optTruthy e.email then some (normalizeEmail (e.email.getD ""))
             else d.email) ∧
        (applySet (updateDocOf e ts) d).external_user_id
          = (if optTruthy e.user_id then e.user_id else d.external_user_id))
  ∧ (∀ (f : UserFilter) (u : UpdateDoc) (id : Nat),
        (upsertInsertDoc f u id).created_at = u.setOnInsertCreatedAt)
  ∧ (∀ (e : SearchEvent) (ts : Nat) (users : List UserDoc) (nextId : Nat),
        optTruthy e.email = false → optTruthy e.user_id = false →
        resolveUser e ts users nextId
          = ({ _id := nextId, name := some (pyOrStr e.name "Anonymous"),
               created_at := ts, updated_at := ts },
             users ++
               [{ _id := nextId, name := some (pyOrStr e.name "Anonymous"),
                  created_at := ts, updated_at := ts }], nextId + 1))
  ∧ ((logSearch (Json.obj [("query", .str "aspirin solubility"),
          ("email", .str "A@Example.com")]) 10 {}).bind
        (fun r1 => logSearch (Json.obj [("query", .str "aspirin solubility"),
          ("email", .str "a@example.COM")]) 20 r1.2)).map
      (fun r =>
        (r.2.users.map (fun u => (u._id, u.email)),
         r.2.searches.map (fun s => (s.user_id, s.query))))
      = some ([(0, some "a@example.com")],
              [(0, "aspirin solubility"), (0, "aspirin solubility")]) := by
  refine ⟨?_, ?_, ?_, ?_, ?_, ?_, ?_, by rfl⟩
  · intro e h; simp [userFilterOf, h]
  · intro e h1 h2; simp [userFilterOf, h1, h2]
  · intro f u pre d post nextId hpre hd
    unfold findOneAndUpdateUpsert
    rw [updateFirst_first_match (filterMatches f) (applySet u) pre d post hpre hd]
  · intro f u users nextId hnone
    unfold findOneAndUpdateUpsert
    rw [updateFirst_eq_none (filterMatches f) (applySet u) users hnone]
  · intro e ts d
    refine ⟨rfl, rfl, ?_, ?_, ?_⟩
    · by_cases hopt : optTruthy e.name = true
      · cases hn : e.name with
        | none => rw [hn] at hopt; simp [optTruthy] at hopt
        | some n => rw [hn] at hopt; simp [applySet, updateDocOf, hn, hopt]
      · simp [applySet, updateDocOf, hopt]
    · by_cases hopt : optTruthy e.email = true
      · simp [applySet, updateDocOf, hopt]
      · simp [applySet, updateDocOf, hopt]
    · by_cases hopt : optTruthy e.user_id = true
      · cases hn : e.user_id with
        | none => rw [hn] at hopt; simp [optTruthy] at hopt
        | some n => rw [hn] at hopt; simp [applySet, updateDocOf, hn, hopt]
      · simp [applySet, updateDocOf, hopt]
  · intro f u id; cases f <;> simp [upsertInsertDoc, applySet]
  · intro e ts users nextId h1 h2
    simp [resolveUser, userFilterOf, h1, h2]

/-- C3 witness: the resolution facts applied to concrete events, filters
and collections. -/
theorem c3_identity_resolution_witness :
    userFilterOf { query := "q", email := some " A@B.c " }
        = some (.byEmail "a@b.c") ∧
    userFilterOf { query := "q", user_id := some "ext1" }
        = some (.byExternalId "ext1") ∧
    findOneAndUpdateUpsert (.byEmail "a@b.c")
        { setOnInsertCreatedAt := 3, setUpdatedAt := 3 }
        [{ _id := 0, email := some "a@b.c", created_at := 1, updated_at := 1 }] 1
      = ({ _id := 0, email := some "a@b.c", created_at := 1, updated_at := 3 },
         [{ _id := 0, email := some "a@b.c", created_at := 1, updated_at := 3 }], 1) ∧
    findOneAndUpdateUpsert (.byEmail "b@b.c")
        { setOnInsertCreatedAt := 3, setUpdatedAt := 3 }
        [{ _id := 0, email := some "a@b.c", created_at := 1, updated_at := 1 }] 1
      = ({ _id := 1, email := some "b@b.c", created_at := 3, updated_at := 3 },
         [{ _id := 0, email := some "a@b.c", created_at := 1, updated_at := 1 },
          { _id := 1, email := some "b@b.c", created_at := 3, updated_at := 3 }], 2) ∧
    resolveUser { query := "q" } 7 [] 0
      = ({ _id := 0, name := some "Anonymous", created_at := 7, updated_at := 7 },
         [{ _id := 0, name := some "Anonymous", created_at := 7, updated_at := 7 }],
         1) :=
  ⟨c3_identity_resolution.1 _ (by decide),
   c3_identity_resolution.2.1 _ (by decide) (by decide),
   by
     have := c3_identity_resolution.2.2.1 (.byEmail "a@b.c")
       { setOnInsertCreatedAt := 3, setUpdatedAt := 3 } []
       { _id := 0, email := some "a@b.c", created_at := 1, updated_at := 1 } [] 1
       (by simp) (by decide)
     simpa [applySet] using this,
   by
     have := c3_identity_resolution.2.2.2.1 (.byEmail "b@b.c")
       { setOnInsertCreatedAt := 3, setUpdatedAt := 3 }
       [{ _id := 0, email := some "a@b.c", created_at := 1, updated_at := 1 }] 1
       (by decide)
     simpa [upsertInsertDoc, applySet] using this,
   c3_identity_resolution.2.2.2.2.2.2.1 { query := "q" } 7 [] 0 (by decide)
     (by decide)⟩

/-- C10: one timestamp `normalizeTimestamp event now` — the client-supplied
timestamp if present, else the capture time — is computed once and used for
the appended search record's `created_at`, for the resolved identity's
`updated_at`, and, whenever the identity is newly inserted (the identifier
counter advanced), for its `created_at` as well: an identity created by an
event and the event's search record carry the identical timestamp. -/
theorem c10_single_timestamp (e : SearchEvent) (now : Nat) (db : DB) :
    ((storeSearchEvent e now db).2.searches.getLast?).map
        (fun s => (s.created_at, s.user_id))
      = some (normalizeTimestamp e now, (storeSearchEvent e now db).1.user_id)
  ∧ (resolveUser e (normalizeTimestamp e now) db.users db.nextId).1.updated_at
      = normalizeTimestamp e now
  ∧ ((resolveUser e (normalizeTimestamp e now) db.users db.nextId).2.2
        ≠ db.nextId →
      (resolveUser e (normalizeTimestamp e now) db.users db.nextId).1.created_at
        = normalizeTimestamp e now) := by
  refine ⟨?_, ?_, ?_⟩
  · simp [storeSearchEvent]
  · unfold resolveUser
    cases hf : userFilterOf e with
    | none => simp
    | some f =>
      have h := findOneAndUpdateUpsert_updated_at f
        (updateDocOf e (normalizeTimestamp e now)) db.users db.nextId
      simpa using h
  · unfold resolveUser
    cases hf : userFilterOf e with
    | none => intro _; simp
    | some f =>
      intro h
      have h2 := findOneAndUpdateUpsert_fresh_created_at f
        (updateDocOf e (normalizeTimestamp e now)) db.users db.nextId (by simpa using h)
      simpa using h2

/-- C10 witness: the fresh-identity direction at a concrete event and an
empty store. -/
theorem c10_single_timestamp_witness :
    (resolveUser { query := "q" } (normalizeTimestamp { query := "q" } 5)
        (DB.users {}) (DB.nextId {})).1.created_at
      = normalizeTimestamp { query := "q" } 5 :=
  (c10_single_timestamp { query := "q" } 5 {}).2.2 (by decide)

/-- The `request_metadata` value of `_build_event_from_payload`: the
payload's `metadata` object when it is a dict, else empty. -/
def requestMetadataOf (payload : Json) : List (String × Json) :=
  match payload.get? "metadata" with
  | some (.obj fields) => fields
  | _ => []

/-- The `event_metadata` dict of `_build_event_from_payload`. -/
def eventMetadataOf (payload : Json) : List (String × Json) :=
  [("model", payload.getd "model"),
   ("messages_count", .num (pyLen (messagesOf payload))),
   ("stream", .bool (jsonTruthy (payload.getd "stream"))),
   ("conversation_id",
     pyOr (payload.getd "conversation_id")
       ((Json.obj (requestMetadataOf payload)).getd "conversation_id"))] ++
  (if (requestMetadataOf payload).isEmpty then []
   else [("request_metadata", Json.obj (requestMetadataOf payload))])

theorem buildEvent_some_eq (payload : Json) (elems : List Json) (m : Json)
    (h1 : pyIterElems (messagesOf payload) = some elems)
    (h2 : lastUserMessage elems = some m)
    (h3 : ¬ (extractUserText (m.getd "content")).getD "" = "") :
    buildEventFromPayload payload = some
      { user_id := asOptStr (pyOr (payload.getd "user")
          ((Json.obj (requestMetadataOf payload)).getd "user_id"))
        email := asOptStr ((Json.obj (requestMetadataOf payload)).getd "email")
        name := asOptStr ((Json.obj (requestMetadataOf payload)).getd "name")
        query := (extractUserText (m.getd "content")).getD ""
        metadata := some (eventMetadataOf payload)
        timestamp := none } := by
  unfold buildEventFromPayload
  simp only [h1, h2]
  rw [if_neg h3]
  rfl

theorem validateOptStr_agrees (v : Json) (s : Option String)
    (h : validateOptStr v = .ok s) : asOptStr v = s := by
  cases v with
  | null => simp only [validateOptStr, Except.ok.injEq] at h; simp [asOptStr, ← h]
  | bool b => simp [validateOptStr] at h
  | num n => simp [validateOptStr] at h
  | str s2 => simp only [validateOptStr, Except.ok.injEq] at h; simp [asOptStr, ← h]
  | arr items => simp [validateOptStr] at h
  | obj fields => simp [validateOptStr] at h

/-- Whenever the exception-modelling extractor returns normally, it returns
exactly what the exception-free projection computes: the projection only
totalizes the raising inputs. -/
theorem buildEventChecked_refines (payload : Json) (r : Option SearchEvent)
    (h : buildEventFromPayloadChecked payload = .ok r) :
    buildEventFromPayload payload = r := by
  cases payload with
  | null => simp [buildEventFromPayloadChecked, pyGet] at h
  | bool b => simp [buildEventFromPayloadChecked, pyGet] at h
  | num n => simp [buildEventFromPayloadChecked, pyGet] at h
  | str s => simp [buildEventFromPayloadChecked, pyGet] at h
  | arr items => simp [buildEventFromPayloadChecked, pyGet] at h
  | obj fields =>
    unfold buildEventFromPayloadChecked at h
    simp only [pyGet] at h
    split at h
    · -- messages not iterable
      rename_i heq
      simp only [Except.ok.injEq] at h
      rw [← h]
      exact buildEvent_none_of_not_iterable (Json.obj fields) heq
    · rename_i elems heq
      split at h
      · -- no user-role message
        rename_i heq2
        simp only [Except.ok.injEq] at h
        rw [← h]
        exact buildEvent_none_of_no_user (Json.obj fields) elems heq heq2
      · rename_i um heq2
        split at h
        · -- empty extracted text
          rename_i h3
          simp only [Except.ok.injEq] at h
          rw [← h]
          exact buildEvent_none_of_empty_text (Json.obj fields) elems um heq heq2 h3
        · rename_i h3
          split at h
          · -- all identity fields validate
            rename_i user_id email name hv1 hv2 hv3
            rw [← validateOptStr_agrees _ _ hv1, ← validateOptStr_agrees _ _ hv2,
              ← validateOptStr_agrees _ _ hv3] at h
            simp only [Except.ok.injEq] at h
            exact (buildEvent_some_eq (Json.obj fields) elems um heq heq2 h3).trans h
          · simp at h
          · simp at h
          · simp at h

/-- C6: the claim that the extractor never throws for malformed input is
refuted by the code: `payload.get("messages")` raises `AttributeError`
when the body is valid JSON but not an object (reachable — the route hands
`request.json()` straight to the extractor), and the `SearchEvent(...)`
constructor raises a pydantic `ValidationError` when an identity field
carries a non-string value such as a dict. Both failing inputs are
evaluated, together with a well-shaped payload extracting normally. -/
theorem c6_extractor_throws :
    buildEventFromPayloadChecked (Json.arr [.num 1, .num 2])
      = .error .attributeError ∧
    buildEventFromPayloadChecked (Json.obj
        [("messages", .arr
           [Json.obj [("role", .str "user"), ("content", .str "hi")]]),
         ("metadata", .obj [("email", .obj [("x", .num 1)])])])
      = .error .validationError ∧
    buildEventFromPayloadChecked samplePayload = .ok (some sampleEvent) := by
  refine ⟨rfl, rfl, rfl⟩
